import Mathlib

/-!
Verification of the date-conversion engine of the vanilla-js-dashboard
extension.  The JavaScript sources are embedded shallowly:

* JavaScript numbers holding calendar fields and Julian Day Numbers are
  modelled as `Int` (every value reaching the arithmetic below is an
  integer of small magnitude, far inside the exactly-representable range
  of IEEE doubles).
* `Math.floor(a / b)` with a positive integer divisor `b` is floor
  division, which for a positive divisor coincides with Lean's `Int`
  division `/` (`Int.ediv`); it is modelled as `a / b`.
* The JavaScript remainder operator `%` is the truncated remainder
  (sign of the dividend), modelled by `jsMod` (`Int.tmod`).
* `Math.floor((n / 33) * 8)` (a float expression in the source) equals
  `⌊8n/33⌋` exactly: when `8n/33` is an integer, `n/33` is exact in
  binary floating point, and otherwise the float result is within
  `~1e-12` of a value at distance at least `1/33` from any integer, so
  it is modelled as `(8 * n) / 33`; `Math.floor((x + 0.5) / 365.25)` is
  `⌊(4x+2)/1461⌋` by the same argument.
* JavaScript `throw` is modelled with `Except String`, carrying the
  thrown message.
-/

/-- JavaScript truncated remainder: the `%` operator (sign of the dividend). -/
def jsMod (a b : Int) : Int := Int.tmod a b

/-- A Gregorian calendar date triple, as produced by `julianToGregorian`
(`{year, month, day}` object in the source). -/
structure GDate where
  year : Int
  month : Int
  day : Int
deriving DecidableEq, Repr

/-- A Jalali calendar date triple, as produced by `julianToJalali`
(`{year, month, day}` object in the source). -/
structure JDate where
  year : Int
  month : Int
  day : Int
deriving DecidableEq, Repr

/-- `const JALALI_EPOCH = 1948321` (src/unnamed/part_000 line 35). -/
def JALALI_EPOCH : Int := 1948321

/-- `const GREGORIAN_EPOCH = 1721426` (src/unnamed/part_000 line 38). -/
def GREGORIAN_EPOCH : Int := 1721426

/-- The `breaks` table shared by `isJalaliLeapYear`, `jalaliToJulian` and
`julianToJalali` (src/unnamed/part_000 lines 93-96, 145-148, 203-206);
only the tail: the loop starts at index 1 with `jp = breaks[0] = -61`. -/
def breaksTail : List Int :=
  [9, 38, 199, 426, 686, 756, 818, 1111, 1181, 1210,
   1635, 2060, 2097, 2192, 2262, 2324, 2394, 2456, 3178]

/-- The break-interval scan that all three part_000 algorithms inline
(e.g. lines 100-107): starting from `jp = breaks[0]`, `jump = 0`, walk the
remaining breaks; at each step set `jump = breaks[i] - jp`, stop before
updating `jp` once `jy < breaks[i]`.  Returns the final `(jp, jump)`. -/
def breakScanGo (jy : Int) : Int → Int → List Int → Int × Int
  | jp, jump, [] => (jp, jump)
  | jp, _, b :: rest =>
      let j := b - jp
      if jy < b then (jp, j) else breakScanGo jy b j rest

/-- The `(jp, jump)` pair left by the scan for a given Jalali year. -/
def breakScan (jy : Int) : Int × Int := breakScanGo jy (-61) 0 breaksTail

/-- `isJalaliLeapYear` (src/unnamed/part_000 lines 86-121).  The
`Number.isInteger` half of the validation is vacuous for `Int` inputs;
the `jy < 1` half throws.  `gy = jy + 621` (line 98) is computed but
never used and is omitted. -/
def isJalaliLeapYear (jy : Int) : Except String Bool :=
  if jy < 1 then .error "Invalid Jalali year: must be a positive integer"
  else
    let p := breakScan jy
    let n0 := jy - p.1
    let n := if p.2 - n0 < 6 then n0 - p.2 + (p.2 / 33) * 33 else n0
    let leapFactor0 := jsMod (jsMod (n + 1) 33 - 1) 4
    let leapFactor := if leapFactor0 = -1 then 4 else leapFactor0
    .ok (leapFactor == 0)

/-- `jalaliToJulian` (src/unnamed/part_000 lines 131-186).  Note the
source validates only `1 ≤ jd ≤ 31`, never the actual month length.
The locals `leapJ` (lines 166-174) and `leapG` (line 176) are computed
but never used and are omitted. -/
def jalaliToJulian (jy jm jd : Int) : Except String Int :=
  if jy < 1 then .error "Invalid Jalali year"
  else if jm < 1 ∨ 12 < jm then .error "Invalid Jalali month: must be 1-12"
  else if jd < 1 ∨ 31 < jd then .error "Invalid Jalali day: must be 1-31"
  else
    let p := breakScan jy
    let n0 := jy - p.1
    let n := if p.2 - n0 < 6 then n0 - p.2 + (p.2 / 33) * 33 else n0
    let jpd := JALALI_EPOCH + 365 * n + (8 * n) / 33 + (jsMod n 33 + 3) / 4 + jd
    .ok (if jm < 7 then jpd + (jm - 1) * 31 else jpd + (jm - 7) * 30 + 186)

/-- `julianToJalali` (src/unnamed/part_000 lines 194-259).  The local
`gy` (line 200) and `leapJ` (lines 224-230) are computed but never
used and are omitted; `isJalaliLeapYear` on the year-rollback branch can
throw (for `jy - 1 < 1`), which propagates. -/
def julianToJalali (jdn : Int) : Except String JDate :=
  if jdn < JALALI_EPOCH then .error "Invalid Julian Day Number"
  else
    let jy := (4 * (jdn - JALALI_EPOCH) + 2) / 1461
    let p := breakScan jy
    let n0 := jy - p.1
    let n := if p.2 - n0 < 6 then n0 - p.2 + (p.2 / 33) * 33 else n0
    let jpd := JALALI_EPOCH + 365 * n + (8 * n) / 33 + (jsMod n 33 + 3) / 4
    if jpd ≤ jdn then
      let jm0 := (jdn - jpd) / 31
      if 6 ≤ jm0 then
        let jm1 := (jdn - jpd - 186) / 30
        .ok ⟨jy, jm1 + 7, (jdn - jpd - 186) - jm1 * 30 + 1⟩
      else
        .ok ⟨jy, jm0 + 1, (jdn - jpd) - jm0 * 31 + 1⟩
    else
      match isJalaliLeapYear (jy - 1) with
      | .error e => .error e
      | .ok leap => .ok ⟨jy - 1, 12, (jdn - jpd) + (if leap then 30 else 29) + 1⟩

/-- `gregorianToJulian` (src/unnamed/part_000 lines 269-289). -/
def gregorianToJulian (gy gm gd : Int) : Except String Int :=
  if gm < 1 ∨ 12 < gm then .error "Invalid Gregorian month: must be 1-12"
  else if gd < 1 ∨ 31 < gd then .error "Invalid Gregorian day: must be 1-31"
  else
    let a := (14 - gm) / 12
    let y := gy + 4800 - a
    let m := gm + 12 * a - 3
    .ok (gd + (153 * m + 2) / 5 + 365 * y + y / 4 - y / 100 + y / 400 - 32045)

/-- `julianToGregorian` (src/unnamed/part_000 lines 297-319); total on
`Int` (the `Number.isFinite` check is vacuous). -/
def julianToGregorian (jdn : Int) : GDate :=
  let a := jdn + 32044
  let b := (4 * a + 3) / 146097
  let c := a - (146097 * b) / 4
  let d := (4 * c + 3) / 1461
  let e := c - (1461 * d) / 4
  let m := (5 * e + 2) / 153
  ⟨100 * b + d - 4800 + m / 10, m + 3 - 12 * (m / 10), e - (153 * m + 2) / 5 + 1⟩

/-- `JalaliDate.getDaysInMonth` (src/unnamed/part_000 lines 688-695);
propagates the `isJalaliLeapYear` throw for month 12 of year < 1. -/
def JalaliDate.getDaysInMonth (year month : Int) : Except String Int :=
  if month < 1 ∨ 12 < month then .error "Invalid month: must be 1-12"
  else if month ≤ 6 then .ok 31
  else if month ≤ 11 then .ok 30
  else (isJalaliLeapYear year).map fun l => if l then 30 else 29

/-!
## Duplicate leap-year implementations and further modules
-/

namespace GregorianCalendar

/-- `GregorianCalendar.isLeapYear` (src/unnamed/part_001 lines 189-191);
identical to `JalaliCalendar.isGregorianLeapYear` (lines 120-122). -/
def isLeapYear (year : Int) : Bool :=
  (jsMod year 4 == 0 && jsMod year 100 != 0) || jsMod year 400 == 0

/-- `GregorianCalendar.getDaysInMonth` (src/unnamed/part_001 lines 196-202);
`daysInMonth[month - 1]` is JS array indexing, out-of-range indices give
`undefined` (modelled as the default 0). -/
def getDaysInMonth (year month : Int) : Int :=
  if month == 2 && isLeapYear year then 29
  else [31, 28, 31, 30, 31, 30, 31, 31, 30, 31, 30, 31].getD (month - 1).toNat 0

end GregorianCalendar

/-- `JalaliCalendar.isJalaliLeapYear` (src/unnamed/part_001 lines 104-115):
the second duplicated Jalali leap rule (2820-cycle remap then a fixed
128/33 pattern). -/
def JalaliCalendar.isJalaliLeapYear (year : Int) : Bool :=
  let aux := year + 38 - 474
  let m0 := jsMod aux 2820
  let m1 := if m0 < 0 then m0 + 2820 else m0
  let gy := 474 + m1
  let leapIndex := jsMod (jsMod (gy + 38 + 31) 128) 33
  ([1, 5, 9, 13, 17, 22, 26, 30] : List Int).contains leapIndex

namespace Calendar

/-- `Calendar.isJalaliLeapYear` (src/src/calendar.js lines 488-492): the
simplified fixed 33-year-cycle approximation. -/
def isJalaliLeapYear (year : Int) : Bool :=
  let cycle := jsMod year 33
  ([1, 5, 9, 13, 17, 22, 26, 30] : List Int).contains cycle

end Calendar

/-!
## Date keys

JavaScript template literals stringify integer-valued numbers with
`String(...)` semantics, modelled by `toString` on `Int`; `padStart(n, c)`
prepends `c` until the length is at least `n`.
-/

/-- `String.prototype.padStart(n, c)` for a pad character `c`. -/
def padStart (n : Nat) (c : Char) (s : String) : String :=
  String.mk (List.replicate (n - s.length) c) ++ s

/-- `Utils.getDateKey` (src/src/utils.js lines 58-68): zero-padded
`YYYY-MM-DD`; the `Date` argument is represented by its Gregorian
calendar fields (`getMonth() + 1` is the 1-based month). -/
def Utils.getDateKey (date : GDate) : String :=
  toString date.year ++ "-" ++ padStart 2 '0' (toString date.month) ++ "-"
    ++ padStart 2 '0' (toString date.day)

/-- `Calendar.formatDateKey` (src/src/calendar.js lines 466-468): the
template literal has no padding, and `parseInt` of an integer-valued
number is the identity. -/
def Calendar.formatDateKey (year month day : Int) : String :=
  toString year ++ "-" ++ toString month ++ "-" ++ toString day

/-- `DastyarApp.formatDateKey` (src/src/app.js lines 920-925): note the
template literal is `${year}${month}-${day}` — there is no dash between
the year and the month. -/
def DastyarApp.formatDateKey (date : GDate) : String :=
  toString date.year ++ padStart 2 '0' (toString date.month) ++ "-"
    ++ padStart 2 '0' (toString date.day)

/-- `Calendar.formatDateString` (src/unnamed/part_001 lines 467-472, the
part_001 `Calendar` class): year padded to 4 digits, month/day to 2. -/
def Calendar.formatDateString (year month day : Int) : String :=
  padStart 4 '0' (toString year) ++ "-" ++ padStart 2 '0' (toString month) ++ "-"
    ++ padStart 2 '0' (toString day)

/-!
## The JalaliDate object (src/unnamed/part_000)

`_jDate` holds the Jalali fields and `_gDate` the Gregorian mirror.  The
time-of-day bookkeeping of `_updateGregorian` (lines 533-535) concerns
the `Date` millisecond clock and is outside this calendar-date model;
only the calendar-date part of `_gDate` is represented.
-/

/-- The mutable state of a `JalaliDate` instance: the `_jDate` fields and
the calendar-date part of `_gDate`. -/
structure JalaliDateObj where
  year : Int
  month : Int
  day : Int
  gDate : GDate
deriving DecidableEq, Repr

namespace JalaliDate

/-- `JalaliDate.prototype._updateGregorian` (src/unnamed/part_000 lines
530-536): recompute `_gDate` from the current `_jDate` fields.  In the
source this runs on the receiver after a field assignment; here the
post-state of the receiver is returned. -/
def updateGregorian (s : JalaliDateObj) : Except String JalaliDateObj :=
  (jalaliToJulian s.year s.month s.day).map fun jdn =>
    { s with gDate := julianToGregorian jdn }

/-- `JalaliDate.prototype.setFullYear` (src/unnamed/part_000 lines
494-500): assigns `this._jDate.year = jy` in place on the receiver, then
`_updateGregorian()`; the JS method returns `undefined`, not a new
object.  The returned state is the receiver's state after the call. -/
def setFullYear (s : JalaliDateObj) (jy : Int) : Except String JalaliDateObj :=
  updateGregorian { s with year := jy }

/-- `JalaliDate.prototype.setMonth` (src/unnamed/part_000 lines 506-512):
assigns `this._jDate.month = jm + 1` (0-based argument) in place on the
receiver, then `_updateGregorian()`; returns `undefined` in JS. -/
def setMonth (s : JalaliDateObj) (jm : Int) : Except String JalaliDateObj :=
  updateGregorian { s with month := jm + 1 }

/-- `JalaliDate.prototype.setDate` (src/unnamed/part_000 lines 518-524):
assigns `this._jDate.day = jd` in place on the receiver, then
`_updateGregorian()`; returns `undefined` in JS. -/
def setDate (s : JalaliDateObj) (jd : Int) : Except String JalaliDateObj :=
  updateGregorian { s with day := jd }

/-- The `"YYYY-MM-DD"`-string path of the `JalaliDate` constructor
(src/unnamed/part_000 lines 356-363): parses the fields as a Jalali
date, converts through `jalaliToJulian`/`julianToGregorian`. -/
def ofJalaliString (jy jm jd : Int) : Except String JalaliDateObj :=
  (jalaliToJulian jy jm jd).map fun jdn => ⟨jy, jm, jd, julianToGregorian jdn⟩

/-- The three-component path of the `JalaliDate` constructor
(src/unnamed/part_000 lines 373-387).  With integer components the
`Number.isInteger` validation passes, and line 385 then calls
`jalaliToJulali(jy, jm, jd)` — an identifier that is not defined
anywhere in the repository (the defined function is `jalaliToJulian`) —
so the construction always throws a `ReferenceError` before producing
an object. -/
def ofComponents (jy jm jd : Int) : Except String JalaliDateObj :=
  .error "ReferenceError: jalaliToJulali is not defined"

end JalaliDate

/-- `Calendar.prototype.jalaliToGregorian` (src/src/calendar.js lines
523-538), with `window.JalaliDate` loaded: builds
`new JalaliDate(jalali.year, jalali.month - 1, jalali.day)` inside a
`try`; on any exception the `catch` logs and the function falls through
to `return new Date()` — the current date, passed here as `now`. -/
def Calendar.jalaliToGregorian (now : GDate) (jy jm jd : Int) : GDate :=
  match JalaliDate.ofComponents jy (jm - 1) jd with
  | .ok s => s.gDate
  | .error _ => now

/-!
## Specification-side formulation of the break-table leap rule

`adjustedN` and `breakTableLeap` transcribe the specification's
description of the leap algorithm (locate the break interval, offset
`n`, tail remap by `33·⌊intervalLength/33⌋ - intervalLength`, then
`((n+1) mod 33 - 1) mod 4` with `-1` counted as `4`); they are compared
against the source's `isJalaliLeapYear` below.
-/

/-- The spec's cycle offset: `n = year - intervalStart`, remapped by
`n - intervalLength + 33·⌊intervalLength/33⌋` when
`intervalLength - n < 6`. -/
def adjustedN (jy : Int) : Int :=
  let p := breakScan jy
  let n := jy - p.1
  if p.2 - n < 6 then n - p.2 + p.2 / 33 * 33 else n

/-- The spec's leap formula over `adjustedN`: leap iff
`((n+1) mod 33 - 1) mod 4 = 0`, a `mod` result of `-1` counting as 4. -/
def breakTableLeap (jy : Int) : Bool :=
  let n := adjustedN jy
  let r := jsMod (jsMod (n + 1) 33 - 1) 4
  (if r = -1 then 4 else r) == 0

/-!
## Helper lemmas
-/

theorem jsMod_eq_zero_iff_dvd (a k : Int) : jsMod a k = 0 ↔ k ∣ a :=
  ⟨Int.dvd_of_tmod_eq_zero, Int.tmod_eq_zero_of_dvd⟩

theorem isLeapYear_iff (y : Int) :
    GregorianCalendar.isLeapYear y = true ↔
      (((4:Int) ∣ y ∧ ¬ (100:Int) ∣ y) ∨ (400:Int) ∣ y) := by
  simp only [GregorianCalendar.isLeapYear, Bool.or_eq_true, Bool.and_eq_true, beq_iff_eq,
    bne_iff_ne, ne_eq, jsMod_eq_zero_iff_dvd]

theorem jalaliToJulian_ok_iff (y m d : Int) :
    (∃ v, jalaliToJulian y m d = .ok v) ↔
      (1 ≤ y ∧ 1 ≤ m ∧ m ≤ 12 ∧ 1 ≤ d ∧ d ≤ 31) := by
  unfold jalaliToJulian
  split_ifs with h1 h2 h3 h4
  · constructor
    · rintro ⟨v, hv⟩; cases hv
    · intro hcon; omega
  · constructor
    · rintro ⟨v, hv⟩; cases hv
    · intro hcon; omega
  · constructor
    · rintro ⟨v, hv⟩; cases hv
    · intro hcon; omega
  · exact ⟨fun _ => by omega, fun _ => ⟨_, rfl⟩⟩
  · exact ⟨fun _ => by omega, fun _ => ⟨_, rfl⟩⟩

/-- Decomposition of `julianToGregorian` over a 400-year-cycle
coordinate: `N` full 146097-day eras, `C ≤ 3` centuries, `Q ≤ 24`
four-year blocks, `R ≤ 3` years, `t` the day offset inside the
March-based year. -/
theorem j2g_decomp (N C Q R t : Int)
    (hC : 0 ≤ C ∧ C ≤ 3) (hQ : 0 ≤ Q ∧ Q ≤ 24) (hR : 0 ≤ R ∧ R ≤ 3)
    (ht : 0 ≤ t) (ht2 : t ≤ 364 ∨ (t = 365 ∧ R = 3 ∧ (Q = 24 → C = 3))) :
    julianToGregorian (146097 * N + 36524 * C + 1461 * Q + 365 * R + t - 32044) =
      ⟨400 * N + 100 * C + 4 * Q + R - 4800 + (5 * t + 2) / 153 / 10,
       (5 * t + 2) / 153 + 3 - 12 * ((5 * t + 2) / 153 / 10),
       t - (153 * ((5 * t + 2) / 153) + 2) / 5 + 1⟩ := by
  simp only [julianToGregorian, GDate.mk.injEq]
  have hb : (4 * (146097 * N + 36524 * C + 1461 * Q + 365 * R + t - 32044 + 32044) + 3) / 146097
      = 4 * N + C := by omega
  rw [hb]
  have hc : (146097 * (4 * N + C)) / 4 = 146097 * N + 36524 * C := by omega
  rw [hc]
  have hd : (4 * (146097 * N + 36524 * C + 1461 * Q + 365 * R + t - 32044 + 32044 -
      (146097 * N + 36524 * C)) + 3) / 1461 = 4 * Q + R := by omega
  rw [hd]
  have he : (1461 * (4 * Q + R)) / 4 = 1461 * Q + 365 * R := by omega
  rw [he]
  have he2 : 146097 * N + 36524 * C + 1461 * Q + 365 * R + t - 32044 + 32044 -
      (146097 * N + 36524 * C) - (1461 * Q + 365 * R) = t := by ring
  rw [he2]
  refine ⟨by omega, by omega, by omega⟩

/-- `julianToGregorian` at a day `t` of the March-based year `Y`
(shifted civil year), phrased over the `toJDN`-style day count. -/
theorem j2g_at (Y t : Int) (ht : 0 ≤ t)
    (ht2 : t ≤ 364 ∨ (t = 365 ∧ (4:Int) ∣ (Y+1) ∧ ((100:Int) ∣ (Y+1) → (400:Int) ∣ (Y+1)))) :
    julianToGregorian (365 * Y + Y / 4 - Y / 100 + Y / 400 + t - 32044) =
      ⟨Y - 4800 + (5 * t + 2) / 153 / 10,
       (5 * t + 2) / 153 + 3 - 12 * ((5 * t + 2) / 153 / 10),
       t - (153 * ((5 * t + 2) / 153) + 2) / 5 + 1⟩ := by
  obtain ⟨N, C, Q, R, hY, hC1, hC2, hQ1, hQ2, hR1, hR2⟩ :
      ∃ N C Q R : Int, Y = 400 * N + 100 * C + 4 * Q + R ∧
        0 ≤ C ∧ C ≤ 3 ∧ 0 ≤ Q ∧ Q ≤ 24 ∧ 0 ≤ R ∧ R ≤ 3 :=
    ⟨Y / 400, Y % 400 / 100, Y % 400 % 100 / 4, Y % 400 % 100 % 4,
      by omega, by omega, by omega, by omega, by omega, by omega, by omega⟩
  have harg : 365 * Y + Y / 4 - Y / 100 + Y / 400 + t - 32044 =
      146097 * N + 36524 * C + 1461 * Q + 365 * R + t - 32044 := by omega
  rw [harg]
  rw [j2g_decomp N C Q R t ⟨hC1, hC2⟩ ⟨hQ1, hQ2⟩ ⟨hR1, hR2⟩ ht (by omega)]
  rw [GDate.mk.injEq]
  refine ⟨by omega, rfl, rfl⟩

theorem month_arg_div (M : Int) (h0 : 0 ≤ M) (h1 : M ≤ 11) :
    (14 - (M + 3 - 12 * (M / 10))) / 12 = M / 10 := by omega

/-!
## Claim theorems
-/

set_option maxHeartbeats 1600000

/-- C1: the claim states that `julianToJalali ∘ jalaliToJulian` is the
identity on valid Jalali dates.  It is not: already at the reference
date Jalali 1403-01-01 the code maps `jalaliToJulian 1403 1 1 = 2018820`
and `julianToJalali 2018820 = (193, 463, 16)` — a month value of 463 —
because `jalaliToJulian` restarts its day count at every break interval
while `julianToJalali` estimates the year from a fixed epoch, so the two
converters do not share a consistent JDN coordinate. -/
theorem jalali_converters_not_inverse :
    (jalaliToJulian 1403 1 1).bind julianToJalali = .ok ⟨193, 463, 16⟩ ∧
      JDate.mk 193 463 16 ≠ ⟨1403, 1, 1⟩ := by
  constructor
  · rfl
  · decide

/-- C2: `isJalaliLeapYear` computes exactly the break-table rule the
specification describes — locate the break interval by ascending scan,
take `n = year - intervalStart`, remap `n` into the tail sub-cycle when
`intervalLength - n < 6`, and test `((n+1) mod 33 - 1) mod 4 = 0` where
a mod result of `-1` counts as 4 (equivalently, `4` divides
`(n+1) mod 33 - 1`) — and throws `Invalid Jalali year` for `year < 1`. -/
theorem isJalaliLeapYear_break_table (y : Int) :
    (y < 1 → isJalaliLeapYear y = .error "Invalid Jalali year: must be a positive integer") ∧
    (1 ≤ y → isJalaliLeapYear y = .ok (breakTableLeap y) ∧
      (breakTableLeap y = true ↔ (4:Int) ∣ (jsMod (adjustedN y + 1) 33 - 1))) := by
  constructor
  · intro h
    unfold isJalaliLeapYear
    rw [if_pos h]
  · intro h
    constructor
    · unfold isJalaliLeapYear breakTableLeap adjustedN
      rw [if_neg (by omega)]
    · unfold breakTableLeap
      rw [beq_iff_eq]
      split_ifs with hneg
      · constructor
        · intro h4; exact absurd h4 (by decide)
        · intro hdvd
          have h0 : jsMod (jsMod (adjustedN y + 1) 33 - 1) 4 = 0 :=
            Int.tmod_eq_zero_of_dvd hdvd
          rw [h0] at hneg
          exact absurd hneg (by decide)
      · exact jsMod_eq_zero_iff_dvd _ 4

/-- Witness for C2 at the concrete years 0 (failure) and 1403 (leap). -/
theorem isJalaliLeapYear_break_table_witness :
    isJalaliLeapYear 0 = .error "Invalid Jalali year: must be a positive integer" ∧
      isJalaliLeapYear 1403 = .ok true := by
  refine ⟨(isJalaliLeapYear_break_table 0).1 (by decide), ?_⟩
  rw [((isJalaliLeapYear_break_table 1403).2 (by decide)).1]
  rfl

/-- C4: the converters do not agree on the documented reference fixed
points.  `gregorianToJulian` gives the true JDNs (2460390 for 2024-03-20
and 2443916 for 1979-02-11), but `jalaliToJulian` maps 1403-01-01 to
2018820 and 1357-11-22 to 2002343, about 1200 years away, and
`julianToJalali 2460390` is (1401, 14744, 6) rather than (1403, 1, 1). -/
theorem reference_fixed_points_fail :
    gregorianToJulian 2024 3 20 = .ok 2460390 ∧ jalaliToJulian 1403 1 1 = .ok 2018820 ∧
    (2460390 : Int) ≠ 2018820 ∧
    gregorianToJulian 1979 2 11 = .ok 2443916 ∧ jalaliToJulian 1357 11 22 = .ok 2002343 ∧
    (2443916 : Int) ≠ 2002343 ∧
    julianToJalali 2460390 = .ok ⟨1401, 14744, 6⟩ := by
  refine ⟨rfl, rfl, by decide, rfl, rfl, by decide, rfl⟩

/-- C5 counterexample: the claim says `jalaliToJulian` fails with
`InvalidDate` whenever the day exceeds `daysInJalaliMonth`; but 1402 is
not a leap year (month 12 has 29 days), and `jalaliToJulian 1402 12 30`
still succeeds instead of failing. -/
theorem jalali_day_overflow_accepted :
    (∃ v, jalaliToJulian 1402 12 30 = .ok v) ∧
      JalaliDate.getDaysInMonth 1402 12 = .ok 29 ∧
      isJalaliLeapYear 1402 = .ok false :=
  ⟨⟨2018820, rfl⟩, rfl, rfl⟩

/-- C5 amended: `jalaliToJulian` succeeds exactly on `year ≥ 1`,
`month ∈ [1,12]`, `day ∈ [1,31]` — the day is never compared against
the month's actual length, so over-long days are accepted silently; in
particular (1403, 12, 30) converts successfully and 1403 is indeed a
leap year, so the spec's concrete instance holds only vacuously. -/
theorem jalaliToJulian_validates_only_fixed_ranges :
    (∀ y m d : Int, (∃ v, jalaliToJulian y m d = .ok v) ↔
      (1 ≤ y ∧ 1 ≤ m ∧ m ≤ 12 ∧ 1 ≤ d ∧ d ≤ 31)) ∧
    (∃ v, jalaliToJulian 1403 12 30 = .ok v) ∧ isJalaliLeapYear 1403 = .ok true :=
  ⟨jalaliToJulian_ok_iff, ⟨2019185, rfl⟩, rfl⟩

/-- C9: the duplicated leap-year implementations disagree with the
break-table algorithm.  The fixed 33-year approximation of
`Calendar.isJalaliLeapYear` (src/src/calendar.js) calls 1634 a leap year
while the break-table `isJalaliLeapYear` does not (1634 lies in the
tail-remap zone before the 1635 break); the 2820-cycle variant of
`JalaliCalendar.isJalaliLeapYear` (src/unnamed/part_001) calls 1403 a
common year while the break table makes it leap. -/
theorem duplicated_leap_rules_diverge :
    (∃ y : Int, 1 ≤ y ∧ isJalaliLeapYear y = .ok false ∧
      Calendar.isJalaliLeapYear y = true) ∧
    (∃ y : Int, 1 ≤ y ∧ isJalaliLeapYear y = .ok true ∧
      JalaliCalendar.isJalaliLeapYear y = false) :=
  ⟨⟨1634, by decide, rfl, rfl⟩, ⟨1403, by decide, rfl, rfl⟩⟩

/-- C10: the three-component `JalaliDate` constructor path always throws
(line 385 calls the undefined identifier `jalaliToJulali`), and
consequently `Calendar.jalaliToGregorian` — whose try-block uses that
constructor — returns the current date for every Jalali input. -/
theorem components_constructor_always_throws :
    (∀ jy jm jd : Int, JalaliDate.ofComponents jy jm jd =
      .error "ReferenceError: jalaliToJulali is not defined") ∧
    (∀ (now : GDate) (jy jm jd : Int), Calendar.jalaliToGregorian now jy jm jd = now) :=
  ⟨fun _ _ _ => rfl, fun _ _ _ _ => rfl⟩

/-- C6 counterexample: the program's key-producing functions do not all
yield the same string for the same calendar day.  For Gregorian
2024-03-05, `Utils.getDateKey` pads to `2024-03-05`,
`Calendar.formatDateKey` (src/src/calendar.js) does not pad and gives
`2024-3-5`, and `DastyarApp.formatDateKey` omits the year-month dash and
gives `202403-05`; only part_001's `Calendar.formatDateString` agrees
with `Utils.getDateKey` here. -/
theorem dateKey_formats_disagree :
    Utils.getDateKey ⟨2024, 3, 5⟩ = "2024-03-05" ∧
    Calendar.formatDateKey 2024 3 5 = "2024-3-5" ∧
    DastyarApp.formatDateKey ⟨2024, 3, 5⟩ = "202403-05" ∧
    Calendar.formatDateString 2024 3 5 = "2024-03-05" ∧
    Utils.getDateKey ⟨2024, 3, 5⟩ ≠ Calendar.formatDateKey 2024 3 5 ∧
    Utils.getDateKey ⟨2024, 3, 5⟩ ≠ DastyarApp.formatDateKey ⟨2024, 3, 5⟩ := by
  refine ⟨rfl, rfl, rfl, rfl, by decide, by decide⟩

/-- C6 amended: every key producer builds its key from the day's
Gregorian fields only, but the formats differ across functions; the
zero-padding `Utils.getDateKey` and the unpadded
`Calendar.formatDateKey` coincide exactly when both the month and the
day already have two digits. -/
theorem padded_and_unpadded_keys_agree_on_two_digits (y m d : Int)
    (hm1 : 10 ≤ m) (hm2 : m ≤ 12) (hd1 : 10 ≤ d) (hd2 : d ≤ 31) :
    Utils.getDateKey ⟨y, m, d⟩ = Calendar.formatDateKey y m d := by
  have hm : padStart 2 '0' (toString m) = toString m := by
    interval_cases m <;> decide
  have hd : padStart 2 '0' (toString d) = toString d := by
    interval_cases d <;> decide
  unfold Utils.getDateKey Calendar.formatDateKey
  rw [hm, hd]

/-- Witness for the C6 amended statement at 2024-10-21. -/
theorem padded_and_unpadded_keys_agree_on_two_digits_witness :
    Utils.getDateKey ⟨2024, 10, 21⟩ = Calendar.formatDateKey 2024 10 21 :=
  padded_and_unpadded_keys_agree_on_two_digits 2024 10 21 (by decide) (by decide)
    (by decide) (by decide)

/-- C7 counterexample: adding one month to Jalali 1403-06-31 through
`setMonth` (month index 6 = seventh month) does not clamp the day to
the target month's 30 days: the resulting state holds month 7, day 31 —
an out-of-range Jalali date — not day 30 as the claim requires. -/
theorem setMonth_does_not_clamp_cex :
    ∃ s0 s1, JalaliDate.ofJalaliString 1403 6 31 = .ok s0 ∧
      JalaliDate.setMonth s0 6 = .ok s1 ∧ s1.month = 7 ∧ s1.day = 31 ∧ ¬ s1.day = 30 := by
  refine ⟨⟨1403, 6, 31, ⟨815, 9, 30⟩⟩, ⟨1403, 7, 31, ⟨815, 10, 31⟩⟩, rfl, rfl, rfl, rfl,
    by decide⟩

/-- C7 amended: `setMonth` performs month replacement in Jalali field
space without any day clamping and without failing: for every stored
Jalali date with `year ≥ 1` and `day ∈ [1,31]` and every target month
index `jm ∈ [0,11]`, the call succeeds and leaves the day unchanged —
so Jalali 1403-06-31 plus one month becomes the invalid 1403-07-31
rather than 1403-07-30. -/
theorem setMonth_keeps_day (s : JalaliDateObj) (jm : Int)
    (hy : 1 ≤ s.year) (h0 : 0 ≤ jm) (h1 : jm ≤ 11) (hd1 : 1 ≤ s.day) (hd2 : s.day ≤ 31) :
    ∃ s1, JalaliDate.setMonth s jm = .ok s1 ∧
      s1.year = s.year ∧ s1.month = jm + 1 ∧ s1.day = s.day := by
  obtain ⟨v, hv⟩ := (jalaliToJulian_ok_iff s.year (jm + 1) s.day).mpr
    ⟨hy, by omega, by omega, hd1, hd2⟩
  refine ⟨{ s with month := jm + 1, gDate := julianToGregorian v }, ?_, rfl, rfl, rfl⟩
  unfold JalaliDate.setMonth JalaliDate.updateGregorian
  rw [show ({ s with month := jm + 1 } : JalaliDateObj).year = s.year from rfl,
    show ({ s with month := jm + 1 } : JalaliDateObj).month = jm + 1 from rfl,
    show ({ s with month := jm + 1 } : JalaliDateObj).day = s.day from rfl, hv]
  rfl

/-- Witness for the C7 amended statement at Jalali 1403-06-31 plus one
month. -/
theorem setMonth_keeps_day_witness :
    ∃ s1, JalaliDate.setMonth ⟨1403, 6, 31, ⟨815, 9, 30⟩⟩ 6 = .ok s1 ∧
      s1.year = 1403 ∧ s1.month = 7 ∧ s1.day = 31 := by
  obtain ⟨s1, h1, h2, h3, h4⟩ := setMonth_keeps_day ⟨1403, 6, 31, ⟨815, 9, 30⟩⟩ 6
    (by decide) (by decide) (by decide) (by decide) (by decide)
  exact ⟨s1, h1, h2, h3, h4⟩

/-- C8: the setters do mutate the receiver.  `setFullYear` assigns
`this._jDate.year` on the receiver itself and returns `undefined` (see
the embedding's doc comments); after calling `setFullYear 1404` on the
object holding Jalali 1403-06-31, the receiver's state differs from its
state before the call — the original value is not preserved, contrary
to the claim (and to the library header's own `Immutable API` note,
src/unnamed/part_000 line 15). -/
theorem setFullYear_overwrites_receiver :
    ∃ s1, JalaliDate.setFullYear ⟨1403, 6, 31, ⟨815, 9, 30⟩⟩ 1404 = .ok s1 ∧
      s1.year = 1404 ∧ s1 ≠ ⟨1403, 6, 31, ⟨815, 9, 30⟩⟩ := by
  refine ⟨⟨1404, 6, 31, ⟨816, 10, 1⟩⟩, rfl, rfl, by decide⟩

/-- C3: the Gregorian JDN converter pair really are mutual inverses —
`julianToGregorian` undoes `gregorianToJulian` on every valid proleptic
Gregorian date, and `gregorianToJulian` applied to the fields of
`julianToGregorian jdn` returns `jdn` for every `jdn` at or above the
Gregorian epoch. -/
theorem gregorian_jdn_converters_mutual_inverse :
    (∀ y m d : Int, 1 ≤ m → m ≤ 12 → 1 ≤ d → d ≤ GregorianCalendar.getDaysInMonth y m →
      ∃ j, gregorianToJulian y m d = .ok j ∧ julianToGregorian j = ⟨y, m, d⟩) ∧
    (∀ jdn : Int, GREGORIAN_EPOCH ≤ jdn →
      gregorianToJulian (julianToGregorian jdn).year (julianToGregorian jdn).month
        (julianToGregorian jdn).day = .ok jdn) := by
  constructor
  · intro y m d h1 h2 h3 h4
    interval_cases m
    · -- January
      have h4' : d ≤ 31 := by simpa [GregorianCalendar.getDaysInMonth] using h4
      refine ⟨365 * (y + 4799) + (y + 4799) / 4 - (y + 4799) / 100 + (y + 4799) / 400 +
        (d + 305) - 32044, ?_, ?_⟩
      · simp only [gregorianToJulian]
        rw [if_neg (by omega), if_neg (by omega), Except.ok.injEq]
        omega
      · rw [j2g_at (y + 4799) (d + 305) (by omega) (by omega)]
        rw [show (5 * (d + 305) + 2) / 153 = 10 from by omega]
        rw [GDate.mk.injEq]
        refine ⟨by omega, by omega, by omega⟩
    · -- February: the only leap-sensitive month
      by_cases hL : GregorianCalendar.isLeapYear y = true
      · have h4' : d ≤ 29 := by simpa [GregorianCalendar.getDaysInMonth, hL] using h4
        have hdvd := (isLeapYear_iff y).mp hL
        refine ⟨365 * (y + 4799) + (y + 4799) / 4 - (y + 4799) / 100 + (y + 4799) / 400 +
          (d + 336) - 32044, ?_, ?_⟩
        · simp only [gregorianToJulian]
          rw [if_neg (by omega), if_neg (by omega), Except.ok.injEq]
          omega
        · rw [j2g_at (y + 4799) (d + 336) (by omega) (by omega)]
          rw [show (5 * (d + 336) + 2) / 153 = 11 from by omega]
          rw [GDate.mk.injEq]
          refine ⟨by omega, by omega, by omega⟩
      · have h4' : d ≤ 28 := by simpa [GregorianCalendar.getDaysInMonth, hL] using h4
        refine ⟨365 * (y + 4799) + (y + 4799) / 4 - (y + 4799) / 100 + (y + 4799) / 400 +
          (d + 336) - 32044, ?_, ?_⟩
        · simp only [gregorianToJulian]
          rw [if_neg (by omega), if_neg (by omega), Except.ok.injEq]
          omega
        · rw [j2g_at (y + 4799) (d + 336) (by omega) (by omega)]
          rw [show (5 * (d + 336) + 2) / 153 = 11 from by omega]
          rw [GDate.mk.injEq]
          refine ⟨by omega, by omega, by omega⟩
    · -- March
      have h4' : d ≤ 31 := by simpa [GregorianCalendar.getDaysInMonth] using h4
      refine ⟨365 * (y + 4800) + (y + 4800) / 4 - (y + 4800) / 100 + (y + 4800) / 400 +
        (d - 1) - 32044, ?_, ?_⟩
      · simp only [gregorianToJulian]
        rw [if_neg (by omega), if_neg (by omega), Except.ok.injEq]
        omega
      · rw [j2g_at (y + 4800) (d - 1) (by omega) (by omega)]
        rw [show (5 * (d - 1) + 2) / 153 = 0 from by omega]
        rw [GDate.mk.injEq]
        refine ⟨by omega, by omega, by omega⟩
    · -- April
      have h4' : d ≤ 30 := by simpa [GregorianCalendar.getDaysInMonth] using h4
      refine ⟨365 * (y + 4800) + (y + 4800) / 4 - (y + 4800) / 100 + (y + 4800) / 400 +
        (d + 30) - 32044, ?_, ?_⟩
      · simp only [gregorianToJulian]
        rw [if_neg (by omega), if_neg (by omega), Except.ok.injEq]
        omega
      · rw [j2g_at (y + 4800) (d + 30) (by omega) (by omega)]
        rw [show (5 * (d + 30) + 2) / 153 = 1 from by omega]
        rw [GDate.mk.injEq]
        refine ⟨by omega, by omega, by omega⟩
    · -- May
      have h4' : d ≤ 31 := by simpa [GregorianCalendar.getDaysInMonth] using h4
      refine ⟨365 * (y + 4800) + (y + 4800) / 4 - (y + 4800) / 100 + (y + 4800) / 400 +
        (d + 60) - 32044, ?_, ?_⟩
      · simp only [gregorianToJulian]
        rw [if_neg (by omega), if_neg (by omega), Except.ok.injEq]
        omega
      · rw [j2g_at (y + 4800) (d + 60) (by omega) (by omega)]
        rw [show (5 * (d + 60) + 2) / 153 = 2 from by omega]
        rw [GDate.mk.injEq]
        refine ⟨by omega, by omega, by omega⟩
    · -- June
      have h4' : d ≤ 30 := by simpa [GregorianCalendar.getDaysInMonth] using h4
      refine ⟨365 * (y + 4800) + (y + 4800) / 4 - (y + 4800) / 100 + (y + 4800) / 400 +
        (d + 91) - 32044, ?_, ?_⟩
      · simp only [gregorianToJulian]
        rw [if_neg (by omega), if_neg (by omega), Except.ok.injEq]
        omega
      · rw [j2g_at (y + 4800) (d + 91) (by omega) (by omega)]
        rw [show (5 * (d + 91) + 2) / 153 = 3 from by omega]
        rw [GDate.mk.injEq]
        refine ⟨by omega, by omega, by omega⟩
    · -- July
      have h4' : d ≤ 31 := by simpa [GregorianCalendar.getDaysInMonth] using h4
      refine ⟨365 * (y + 4800) + (y + 4800) / 4 - (y + 4800) / 100 + (y + 4800) / 400 +
        (d + 121) - 32044, ?_, ?_⟩
      · simp only [gregorianToJulian]
        rw [if_neg (by omega), if_neg (by omega), Except.ok.injEq]
        omega
      · rw [j2g_at (y + 4800) (d + 121) (by omega) (by omega)]
        rw [show (5 * (d + 121) + 2) / 153 = 4 from by omega]
        rw [GDate.mk.injEq]
        refine ⟨by omega, by omega, by omega⟩
    · -- August
      have h4' : d ≤ 31 := by simpa [GregorianCalendar.getDaysInMonth] using h4
      refine ⟨365 * (y + 4800) + (y + 4800) / 4 - (y + 4800) / 100 + (y + 4800) / 400 +
        (d + 152) - 32044, ?_, ?_⟩
      · simp only [gregorianToJulian]
        rw [if_neg (by omega), if_neg (by omega), Except.ok.injEq]
        omega
      · rw [j2g_at (y + 4800) (d + 152) (by omega) (by omega)]
        rw [show (5 * (d + 152) + 2) / 153 = 5 from by omega]
        rw [GDate.mk.injEq]
        refine ⟨by omega, by omega, by omega⟩
    · -- September
      have h4' : d ≤ 30 := by simpa [GregorianCalendar.getDaysInMonth] using h4
      refine ⟨365 * (y + 4800) + (y + 4800) / 4 - (y + 4800) / 100 + (y + 4800) / 400 +
        (d + 183) - 32044, ?_, ?_⟩
      · simp only [gregorianToJulian]
        rw [if_neg (by omega), if_neg (by omega), Except.ok.injEq]
        omega
      · rw [j2g_at (y + 4800) (d + 183) (by omega) (by omega)]
        rw [show (5 * (d + 183) + 2) / 153 = 6 from by omega]
        rw [GDate.mk.injEq]
        refine ⟨by omega, by omega, by omega⟩
    · -- October
      have h4' : d ≤ 31 := by simpa [GregorianCalendar.getDaysInMonth] using h4
      refine ⟨365 * (y + 4800) + (y + 4800) / 4 - (y + 4800) / 100 + (y + 4800) / 400 +
        (d + 213) - 32044, ?_, ?_⟩
      · simp only [gregorianToJulian]
        rw [if_neg (by omega), if_neg (by omega), Except.ok.injEq]
        omega
      · rw [j2g_at (y + 4800) (d + 213) (by omega) (by omega)]
        rw [show (5 * (d + 213) + 2) / 153 = 7 from by omega]
        rw [GDate.mk.injEq]
        refine ⟨by omega, by omega, by omega⟩
    · -- November
      have h4' : d ≤ 30 := by simpa [GregorianCalendar.getDaysInMonth] using h4
      refine ⟨365 * (y + 4800) + (y + 4800) / 4 - (y + 4800) / 100 + (y + 4800) / 400 +
        (d + 244) - 32044, ?_, ?_⟩
      · simp only [gregorianToJulian]
        rw [if_neg (by omega), if_neg (by omega), Except.ok.injEq]
        omega
      · rw [j2g_at (y + 4800) (d + 244) (by omega) (by omega)]
        rw [show (5 * (d + 244) + 2) / 153 = 8 from by omega]
        rw [GDate.mk.injEq]
        refine ⟨by omega, by omega, by omega⟩
    · -- December
      have h4' : d ≤ 31 := by simpa [GregorianCalendar.getDaysInMonth] using h4
      refine ⟨365 * (y + 4800) + (y + 4800) / 4 - (y + 4800) / 100 + (y + 4800) / 400 +
        (d + 274) - 32044, ?_, ?_⟩
      · simp only [gregorianToJulian]
        rw [if_neg (by omega), if_neg (by omega), Except.ok.injEq]
        omega
      · rw [j2g_at (y + 4800) (d + 274) (by omega) (by omega)]
        rw [show (5 * (d + 274) + 2) / 153 = 9 from by omega]
        rw [GDate.mk.injEq]
        refine ⟨by omega, by omega, by omega⟩
  · intro jdn hepoch
    have h : 1721426 ≤ jdn := hepoch
    obtain ⟨N, C, Q, R, t, hsum, hC1, hC2, hQ1, hQ2, hR1, hR2, ht, ht2⟩ :
        ∃ N C Q R t : Int, jdn + 32044 = 146097 * N + 36524 * C + 1461 * Q + 365 * R + t ∧
          0 ≤ C ∧ C ≤ 3 ∧ 0 ≤ Q ∧ Q ≤ 24 ∧ 0 ≤ R ∧ R ≤ 3 ∧ 0 ≤ t ∧
          (t ≤ 364 ∨ (t = 365 ∧ R = 3 ∧ (Q = 24 → C = 3))) := by
      by_cases hCe : (jdn + 32044) % 146097 = 146096
      · exact ⟨(jdn + 32044) / 146097, 3, 24, 3, 365, by omega, by omega, by omega, by omega,
          by omega, by omega, by omega, by omega, by omega⟩
      · by_cases hRe : (jdn + 32044) % 146097 % 36524 % 1461 = 1460
        · exact ⟨(jdn + 32044) / 146097, (jdn + 32044) % 146097 / 36524,
            (jdn + 32044) % 146097 % 36524 / 1461, 3, 365, by omega, by omega, by omega,
            by omega, by omega, by omega, by omega, by omega, by omega⟩
        · exact ⟨(jdn + 32044) / 146097, (jdn + 32044) % 146097 / 36524,
            (jdn + 32044) % 146097 % 36524 / 1461,
            (jdn + 32044) % 146097 % 36524 % 1461 / 365,
            (jdn + 32044) % 146097 % 36524 % 1461 % 365, by omega, by omega, by omega,
            by omega, by omega, by omega, by omega, by omega, by omega⟩
    rw [show jdn = 146097 * N + 36524 * C + 1461 * Q + 365 * R + t - 32044 by omega]
    rw [j2g_decomp N C Q R t ⟨hC1, hC2⟩ ⟨hQ1, hQ2⟩ ⟨hR1, hR2⟩ ht ht2]
    dsimp only
    simp only [gregorianToJulian]
    rw [if_neg (by omega), if_neg (by omega)]
    rw [month_arg_div ((5 * t + 2) / 153) (by omega) (by omega)]
    rw [Except.ok.injEq]
    have hmm2 : (5 * t + 2) / 153 + 3 - 12 * ((5 * t + 2) / 153 / 10) +
        12 * ((5 * t + 2) / 153 / 10) - 3 = (5 * t + 2) / 153 := by ring
    rw [hmm2]
    have hy2 : 400 * N + 100 * C + 4 * Q + R - 4800 + (5 * t + 2) / 153 / 10 + 4800 -
        (5 * t + 2) / 153 / 10 = 400 * N + 100 * C + 4 * Q + R := by ring
    rw [hy2]
    omega

/-- Witness for C3 at Gregorian 2024-03-20 and its JDN 2460390. -/
theorem gregorian_jdn_converters_mutual_inverse_witness :
    julianToGregorian 2460390 = ⟨2024, 3, 20⟩ ∧
    gregorianToJulian (julianToGregorian 2460390).year (julianToGregorian 2460390).month
      (julianToGregorian 2460390).day = .ok 2460390 := by
  obtain ⟨j, hj, hback⟩ := gregorian_jdn_converters_mutual_inverse.1 2024 3 20
    (by decide) (by decide) (by decide) (by decide)
  obtain rfl : (2460390 : Int) = j := by
    have h0 : gregorianToJulian 2024 3 20 = .ok 2460390 := rfl
    rw [h0] at hj
    injection hj
  exact ⟨hback, gregorian_jdn_converters_mutual_inverse.2 2460390 (by decide)⟩
